import Mathlib

/-!
Verification of the resilient media upload pipeline of the genzly repository.

The definitions below are a shallow embedding of two source modules:

- src/services/networkAwareUpload.ts : the network-aware upload controller
  (adaptive timeout, stall watchdog, error classification, cancellation map);
- src/services/uploadQueue.ts : the upload task queue (optimistic placeholder
  records, status machine, retry and cancel).

Timestamps and durations are in milliseconds.  JavaScript numbers on the
timeout path are modelled as rationals (the only division involved is by the
constant 1024 * 1024); byte counts and wall-clock ticks are naturals.
Effectful statements (map mutation, starting a byte transfer, document-store
writes) are reified as effect lists so that ordering claims can be stated.
-/

set_option maxHeartbeats 1000000

namespace Genzly

/-- Helper: list-level check that `pat` occurs as a prefix. -/
def listIsPrefOf : List Char → List Char → Bool
  | [], _ => true
  | _ :: _, [] => false
  | a :: as, b :: bs => a == b && listIsPrefOf as bs

/-- Helper: list-level substring containment. -/
def listContainsSub (pat : List Char) : List Char → Bool
  | [] => listIsPrefOf pat []
  | c :: cs => listIsPrefOf pat (c :: cs) || listContainsSub pat cs

/-- Model of the JavaScript `String.prototype.includes` method. -/
def strIncludes (s pat : String) : Bool := listContainsSub pat.data s.data

/-- Helper for `jsSplit`: split a character list at a separator, keeping the
accumulated current segment. -/
def splitCharAux (sep : Char) : List Char → List Char → List (List Char)
  | [], acc => [acc.reverse]
  | c :: cs, acc =>
    if c == sep then acc.reverse :: splitCharAux sep cs []
    else splitCharAux sep cs (c :: acc)

/-- Model of the JavaScript `String.prototype.split` method with a
one-character separator: the result always has at least one element, and
empty segments are kept. -/
def jsSplit (sep : Char) (s : String) : List String :=
  (splitCharAux sep s.data []).map String.mk

/-- Model of `navigator.connection` (the Network Information API): an
optional effective type string and an optional downlink estimate in Mbps. -/
structure ConnectionInfo where
  effectiveType : Option String
  downlink : Option ℚ
deriving DecidableEq

namespace NetworkAwareUploader

/-- Source (networkAwareUpload.ts, lines 50-53): the slow-connection test used
for the adaptive timeout.  The JavaScript condition
`connection?.downlink && connection.downlink < 1` is truthy only when the
downlink field is present and nonzero. -/
def isSlowConnection (connection : Option ConnectionInfo) : Bool :=
  match connection with
  | none => false
  | some c =>
    c.effectiveType == some "slow-2g" || c.effectiveType == some "2g" ||
      (match c.downlink with
       | none => false
       | some d => decide (d ≠ 0) && decide (d < 1))

/-- Source line 57: 30s minimum. -/
def MIN_TIMEOUT : ℚ := 30000

/-- Source line 58: 2 minutes default. -/
def DEFAULT_TIMEOUT : ℚ := 120000

/-- Source line 59: 5 minutes maximum cap. -/
def MAX_TIMEOUT : ℚ := 300000

/-- Source line 56: `file.size / (1024 * 1024)`. -/
def fileSizeMB (sizeBytes : ℕ) : ℚ := (sizeBytes : ℚ) / (1024 * 1024)

/-- Source line 61: per-MB budget of 60000 ms on slow links, 20000 ms otherwise. -/
def sizeBasedTimeout (sizeBytes : ℕ) (slow : Bool) : ℚ :=
  if slow then fileSizeMB sizeBytes * 60000 else fileSizeMB sizeBytes * 20000

/-- Source lines 60-62: `options.timeout ?? DEFAULT_TIMEOUT` entered into
`Math.min(Math.max(requestedTimeout, sizeBasedTimeout, MIN_TIMEOUT), MAX_TIMEOUT)`. -/
def adaptiveTimeout (sizeBytes : ℕ) (slow : Bool) (hint : Option ℚ) : ℚ :=
  let requestedTimeout := hint.getD DEFAULT_TIMEOUT
  min (max (max requestedTimeout (sizeBasedTimeout sizeBytes slow)) MIN_TIMEOUT) MAX_TIMEOUT

/-- Modelled from the claim wording (not from the source): the timeout the
claim describes, namely the maximum of the caller hint only when one is
supplied, the size-based estimate, and the floor, clamped to the ceiling.
This is compared against `adaptiveTimeout`, which is read off the source. -/
def claimedTimeout (sizeBytes : ℕ) (slow : Bool) (hint : Option ℚ) : ℚ :=
  match hint with
  | some h => min (max (max h (sizeBasedTimeout sizeBytes slow)) MIN_TIMEOUT) MAX_TIMEOUT
  | none => min (max (sizeBasedTimeout sizeBytes slow) MIN_TIMEOUT) MAX_TIMEOUT

/-- Sample fast link: effective type 4g, downlink 10 Mbps. -/
def fastConnection : Option ConnectionInfo := some ⟨some "4g", some 10⟩

lemma sizeBasedTimeout_nonneg (S : ℕ) (slow : Bool) : 0 ≤ sizeBasedTimeout S slow := by
  unfold sizeBasedTimeout fileSizeMB
  cases slow <;> simp <;> positivity

lemma sizeBasedTimeout_mono (S T : ℕ) (slow : Bool) (h : S ≤ T) :
    sizeBasedTimeout S slow ≤ sizeBasedTimeout T slow := by
  unfold sizeBasedTimeout fileSizeMB
  have hq : (S : ℚ) ≤ (T : ℚ) := by exact_mod_cast h
  cases slow <;> simp only [Bool.false_eq_true, if_true, if_false] <;> gcongr

lemma sizeBasedTimeout_slow_le (S : ℕ) :
    sizeBasedTimeout S false ≤ sizeBasedTimeout S true := by
  unfold sizeBasedTimeout fileSizeMB
  simp only [Bool.false_eq_true, if_true, if_false]
  have h : (0 : ℚ) ≤ (S : ℚ) / (1024 * 1024) := by positivity
  nlinarith

/-- C1 counterexample: with no caller hint, a 2 MB payload on a fast link.
The timeout the claim describes (maximum of the size-based estimate and the
floor only, the hint being absent) is 40000 ms, while the code substitutes the
2-minute default for the missing hint and returns 120000 ms. -/
theorem adaptiveTimeout_claim_counterexample :
    claimedTimeout (2 * 1024 * 1024) false none = 40000 ∧
      adaptiveTimeout (2 * 1024 * 1024) false none = 120000 ∧
      adaptiveTimeout (2 * 1024 * 1024) false none ≠
        claimedTimeout (2 * 1024 * 1024) false none := by
  refine ⟨?_, ?_, ?_⟩ <;>
    norm_num [claimedTimeout, adaptiveTimeout, sizeBasedTimeout, fileSizeMB, MIN_TIMEOUT,
      MAX_TIMEOUT, DEFAULT_TIMEOUT, min_def, max_def]

/-- C1 (amended): the adaptive timeout equals the maximum of the caller hint
(replaced by the 120000 ms default when not supplied), the size-based
estimate, and the 30000 ms floor, clamped to the 300000 ms ceiling;
consequently it always lies in the interval from floor to ceiling, is
non-decreasing in the payload size for a fixed quality class, and the
slow-link timeout dominates the fast-link one for a fixed size. -/
theorem adaptiveTimeout_amended (S T : ℕ) (slow : Bool) (hint : Option ℚ) (hST : S ≤ T) :
    adaptiveTimeout S slow hint =
      min (max (max (hint.getD DEFAULT_TIMEOUT) (sizeBasedTimeout S slow)) MIN_TIMEOUT)
        MAX_TIMEOUT ∧
    MIN_TIMEOUT ≤ adaptiveTimeout S slow hint ∧
    adaptiveTimeout S slow hint ≤ MAX_TIMEOUT ∧
    adaptiveTimeout S slow hint ≤ adaptiveTimeout T slow hint ∧
    adaptiveTimeout S false hint ≤ adaptiveTimeout S slow hint := by
  refine ⟨rfl, ?_, ?_, ?_, ?_⟩
  · unfold adaptiveTimeout
    refine le_min (le_max_right _ _) ?_
    norm_num [MIN_TIMEOUT, MAX_TIMEOUT]
  · exact min_le_right _ _
  · unfold adaptiveTimeout
    have h := sizeBasedTimeout_mono S T slow hST
    exact min_le_min (max_le_max (max_le_max le_rfl h) le_rfl) le_rfl
  · cases slow
    · exact le_rfl
    · unfold adaptiveTimeout
      have h := sizeBasedTimeout_slow_le S
      exact min_le_min (max_le_max (max_le_max le_rfl h) le_rfl) le_rfl

/-- C1 witness: the amended theorem instantiated at payload sizes 0 and 1. -/
theorem adaptiveTimeout_amended_witness :
    MIN_TIMEOUT ≤ adaptiveTimeout 0 false none ∧
      adaptiveTimeout 0 false none ≤ adaptiveTimeout 1 false none :=
  ⟨(adaptiveTimeout_amended 0 1 false none (by decide)).2.1,
    (adaptiveTimeout_amended 0 1 false none (by decide)).2.2.2.1⟩

/-- C9 counterexample: a 2 MB image on a fast quality class with no caller
hint does not get the 30-second floor value as its adaptive timeout. -/
theorem scenarioA_timeout_counterexample :
    adaptiveTimeout (2 * 1024 * 1024) (isSlowConnection fastConnection) none ≠ MIN_TIMEOUT := by
  rw [show isSlowConnection fastConnection = false from by decide]
  norm_num [adaptiveTimeout, sizeBasedTimeout, fileSizeMB,
    MIN_TIMEOUT, MAX_TIMEOUT, DEFAULT_TIMEOUT, min_def, max_def]

/-- C9 (amended): a 2 MB image on a fast quality class with no caller hint
gets the 2-minute default timeout of 120000 ms, which exceeds the floor. -/
theorem scenarioA_timeout_amended :
    adaptiveTimeout (2 * 1024 * 1024) (isSlowConnection fastConnection) none
      = DEFAULT_TIMEOUT ∧ MIN_TIMEOUT < DEFAULT_TIMEOUT := by
  rw [show isSlowConnection fastConnection = false from by decide]
  constructor <;>
    norm_num [adaptiveTimeout, sizeBasedTimeout, fileSizeMB,
      MIN_TIMEOUT, MAX_TIMEOUT, DEFAULT_TIMEOUT, min_def, max_def]

/-- Model of a JavaScript error value as inspected by the classifier:
an optional `code` field, a `message`, and an optional `serverResponse`. -/
structure JsError where
  code : Option String
  message : String
  serverResponse : Option String
deriving DecidableEq

/-- Environment read by `uploadFile`: `navigator.onLine`,
`navigator.connection`, `auth.currentUser` (its uid) and `Date.now()`. -/
structure UploadEnv where
  online : Bool
  connection : Option ConnectionInfo
  authUser : Option String
  now : ℕ
deriving DecidableEq

/-- Source interface `NetworkAwareUploadResult` (lines 13-18). -/
structure NetworkAwareUploadResult where
  success : Bool
  url : Option String
  error : Option String
  cancelled : Option Bool
deriving DecidableEq

/-- Observable controller effects: mutations of the active-session map,
the start of a byte transfer, and cancellation of an in-flight transfer. -/
inductive UploadEffect where
  | registerSession (id : String)
  | deleteSession (id : String)
  | beginTransfer (path : String)
  | cancelTransfer
deriving DecidableEq

/-- Source lines 174 and 292: the degraded-link test used by the stall
watchdog and by the error classifier (effective type only, no downlink). -/
def isDegradedEffType (connection : Option ConnectionInfo) : Bool :=
  match connection with
  | none => false
  | some c => c.effectiveType == some "slow-2g" || c.effectiveType == some "2g"

/-- Message produced when the watchdog cancellation is classified (line 264). -/
def stalledUserMessage : String :=
  "Upload stalled due to no progress. This can be caused by blocked requests (App Check or Storage rules)."

/-- Generic network-failure message (line 295). -/
def genericNetworkMessage : String :=
  "Upload failed due to network issues. Please try again."

/-- Message for the offline pre-flight rejection (lines 46 and 260). -/
def offlineMessage : String :=
  "No internet connection. Please check your network and try again."

/-- Source `getNetworkAwareErrorMessage` (lines 245-310), branch for branch. -/
def getNetworkAwareErrorMessage (env : UploadEnv) (error : JsError) : String :=
  if env.online = false then
    offlineMessage
  else if strIncludes error.message "stalled" then
    stalledUserMessage
  else if error.code == some "storage/canceled" then
    "Upload was canceled."
  else if error.code == some "storage/unauthenticated" then
    "You need to sign in to upload. Please log in and try again."
  else if error.code == some "storage/unauthorized" then
    if strIncludes (String.toLower (error.serverResponse.getD "")) "app check" then
      "Upload blocked by App Check. Enable App Check for this app or run in debug mode during development."
    else
      "Permission denied by Storage rules. Ensure the user has access to this path."
  else if error.code == some "storage/quota-exceeded" then
    "Storage quota exceeded. Please contact support."
  else if error.code == some "storage/retry-limit-exceeded" then
    "Upload failed after multiple retries. Please try again."
  else if error.code == some "storage/unknown" then
    if isDegradedEffType env.connection then
      "Upload failed due to very slow connection. Try again on a faster network."
    else
      genericNetworkMessage
  else if strIncludes error.message "timeout" then
    if isDegradedEffType env.connection then
      "Upload timeout due to slow connection. Try again with a smaller file or faster network."
    else
      "Upload timeout. Please check your connection and try again."
  else if strIncludes error.message "network" || strIncludes error.message "fetch" then
    "Network error occurred. Please check your connection and try again."
  else
    match env.connection with
    | some c =>
      match c.effectiveType with
      | some t => "Upload failed (Connection: " ++ t ++ "). Please try again."
      | none => "Upload failed. Please try again."
    | none => "Upload failed. Please try again."

/-- Error thrown at line 46 for the offline pre-flight rejection. -/
def offlineError : JsError := ⟨none, offlineMessage, none⟩

/-- Error thrown at line 78 when no user is authenticated. -/
def authRequiredError : JsError := ⟨none, "User must be authenticated to upload", none⟩

/-- Error thrown at line 90 when the uid does not match the path segment.
JavaScript renders a missing segment as the text undefined. -/
def uidMismatchError (uid : String) (pathUserId : Option String) : JsError :=
  ⟨none, "UID mismatch: " ++ uid ++ " vs path " ++ pathUserId.getD "undefined", none⟩

/-- Model of `Math.round`, which is floor of the argument plus one half. -/
def jsRound (q : ℚ) : ℤ := Int.floor (q + 1 / 2)

/-- Error rejected by the timeout promise (line 106). -/
def timeoutRaceError (t : ℚ) : JsError :=
  ⟨none,
    "Upload timeout after " ++ toString (jsRound (t / 1000)) ++
      "s. Please check your connection and try again.", none⟩

/-- Error the watchdog path rejects with (line 223). -/
def stalledRejectError : JsError :=
  ⟨none,
    "Upload stalled (no progress). Check: 1) Auth token is valid, 2) Storage rules allow this path, 3) Network connection is stable.",
    none⟩

/-- Firebase cancellation error carrying the storage/canceled code; the
message is backend supplied and left as a parameter. -/
def canceledError (msg : String) : JsError := ⟨some "storage/canceled", msg, none⟩

/-- How the race between `performUpload` and the timeout promise settled. -/
inductive RaceOutcome where
  | settledSuccess (url : String)
  | settledFailure (error : JsError)
  | timedOut
deriving DecidableEq

/-- Source catch block (lines 119-134): the session is deleted, then the
abort flag of the own controller decides between the cancelled result and a
classified error result. -/
def catchResult (env : UploadEnv) (aborted : Bool) (error : JsError) : NetworkAwareUploadResult :=
  if aborted then ⟨false, none, none, some true⟩
  else ⟨false, none, some (getNetworkAwareErrorMessage env error), none⟩

/-- Source line 37: the session id is the storage path plus the clock value. -/
def uploadIdOf (storagePath : String) (now : ℕ) : String :=
  storagePath ++ "_" ++ toString now

/-- Source lines 84 and 88: the second segment of the storage path split at
the slash character. -/
def pathUserIdOf (storagePath : String) : Option String :=
  (jsSplit '/' storagePath)[1]?

/-- Source `uploadFile` (lines 31-135) as a function of the environment, the
payload size, the destination path, the caller timeout hint, the race
outcome, and whether the own abort controller was aborted while the call was
suspended.  It returns the result together with the ordered effect trace.
The session is registered at line 41 before the try block; every branch of
the catch block deletes it again before returning. -/
def uploadFile (env : UploadEnv) (fileSize : ℕ) (storagePath : String) (hint : Option ℚ)
    (race : RaceOutcome) (abortedDuringFlight : Bool) :
    NetworkAwareUploadResult × List UploadEffect :=
  let uploadId := uploadIdOf storagePath env.now
  if env.online = false then
    (catchResult env false offlineError,
      [.registerSession uploadId, .deleteSession uploadId])
  else
    match env.authUser with
    | none =>
      (catchResult env abortedDuringFlight authRequiredError,
        [.registerSession uploadId, .deleteSession uploadId])
    | some uid =>
      if pathUserIdOf storagePath ≠ some uid then
        (catchResult env abortedDuringFlight (uidMismatchError uid (pathUserIdOf storagePath)),
          [.registerSession uploadId, .deleteSession uploadId])
      else
        match race with
        | .settledSuccess url =>
          (⟨true, some url, none, none⟩,
            [.registerSession uploadId, .beginTransfer storagePath, .deleteSession uploadId])
        | .settledFailure err =>
          (catchResult env abortedDuringFlight err,
            [.registerSession uploadId, .beginTransfer storagePath, .deleteSession uploadId])
        | .timedOut =>
          (catchResult env abortedDuringFlight
              (timeoutRaceError (adaptiveTimeout fileSize (isSlowConnection env.connection) hint)),
            [.registerSession uploadId, .beginTransfer storagePath, .deleteSession uploadId])

/-- Effect of one trace entry on the key set of the active-session map. -/
def applyEffect (m : List String) : UploadEffect → List String
  | .registerSession id => if m.contains id then m else m ++ [id]
  | .deleteSession id => m.filter (fun x => !(x == id))
  | _ => m

/-- Replay of an effect trace on the active-session map. -/
def applyTrace (m : List String) (es : List UploadEffect) : List String :=
  es.foldl applyEffect m

/-- Source `cancelUpload` (lines 312-319): abort and delete when the id is
present, otherwise do nothing. -/
def cancelUpload (m : List String) (uploadId : String) : List String :=
  if m.contains uploadId then m.filter (fun x => !(x == uploadId)) else m

/-- Source `cancelAllUploads` (lines 321-327): abort every session, clear. -/
def cancelAllUploads (_m : List String) : List String := []

/-- Source `getActiveUploadsCount` (lines 329-331). -/
def getActiveUploadsCount (m : List String) : ℕ := m.length

/-- Bool test for a transfer-starting effect. -/
def isBeginTransferEff : UploadEffect → Bool
  | .beginTransfer _ => true
  | _ => false

/-- Whether a trace starts any byte transfer. -/
def hasTransfer (es : List UploadEffect) : Bool := es.any isBeginTransferEff

/-- Every branch of `uploadFile` produces one of two trace shapes: register
then delete (pre-flight throw), or register, transfer, delete. -/
lemma uploadFile_trace_shape (env : UploadEnv) (fileSize : ℕ) (path : String) (hint : Option ℚ)
    (race : RaceOutcome) (ab : Bool) :
    (uploadFile env fileSize path hint race ab).2
        = [.registerSession (uploadIdOf path env.now), .deleteSession (uploadIdOf path env.now)] ∨
      (uploadFile env fileSize path hint race ab).2
        = [.registerSession (uploadIdOf path env.now), .beginTransfer path,
            .deleteSession (uploadIdOf path env.now)] := by
  by_cases ho : env.online = false
  · left; simp [uploadFile, ho]
  · cases ha : env.authUser with
    | none => left; simp [uploadFile, ho, ha]
    | some uid =>
      by_cases hp : pathUserIdOf path ≠ some uid
      · left; simp [uploadFile, ho, ha, hp]
      · right; cases race <;> simp [uploadFile, ho, ha, hp]

lemma filter_ne_of_not_mem (m : List String) (id : String) (hm : id ∉ m) :
    m.filter (fun x => !(x == id)) = m := by
  apply List.filter_eq_self.mpr
  intro x hx
  simp only [Bool.not_eq_true', beq_eq_false_iff_ne, ne_eq]
  intro h
  exact hm (h ▸ hx)

/-- Replaying any `uploadFile` trace on a map not containing the fresh
session id restores the map: the session is removed again before return. -/
lemma applyTrace_uploadFile (env : UploadEnv) (fileSize : ℕ) (path : String) (hint : Option ℚ)
    (race : RaceOutcome) (ab : Bool) (m : List String)
    (hm : uploadIdOf path env.now ∉ m) :
    applyTrace m (uploadFile env fileSize path hint race ab).2 = m := by
  have hc : m.contains (uploadIdOf path env.now) = false := by
    simpa using hm
  rcases uploadFile_trace_shape env fileSize path hint race ab with h | h <;>
    simp [h, applyTrace, applyEffect, hc, hm, List.filter_append,
      filter_ne_of_not_mem m _ hm]

/-- Sample offline environment with an authenticated user. -/
def offlineEnvSample : UploadEnv := ⟨false, none, some "u1", 0⟩

/-- Sample online environment with an authenticated user and no connection
information exposed. -/
def onlineEnvSample : UploadEnv := ⟨true, none, some "u1", 0⟩

/-- C5 counterexample: with connectivity absent at call time, the call does
return the offline error without a transfer, but a TransferSession is
registered in the active-session map (line 41 precedes the online check at
line 45), contradicting the claim that none is ever registered. -/
theorem offline_register_counterexample :
    (uploadFile offlineEnvSample 100 "posts/u1/a.jpg" none (.settledSuccess "u") false).1.error
        = some offlineMessage ∧
      UploadEffect.registerSession (uploadIdOf "posts/u1/a.jpg" 0) ∈
        (uploadFile offlineEnvSample 100 "posts/u1/a.jpg" none (.settledSuccess "u") false).2 := by
  constructor
  · decide
  · decide

/-- C5 (amended): if connectivity is known to be absent at call time,
`uploadFile` returns immediately with the offline-classified error, no byte
transfer is attempted, and although a TransferSession is registered at entry
it is deleted again before the call returns, so the active-session map is
left exactly as it was. -/
theorem offline_reject_amended (env : UploadEnv) (fileSize : ℕ) (path : String)
    (hint : Option ℚ) (race : RaceOutcome) (ab : Bool) (m : List String)
    (hoff : env.online = false) (hm : uploadIdOf path env.now ∉ m) :
    (uploadFile env fileSize path hint race ab).1 = ⟨false, none, some offlineMessage, none⟩ ∧
    hasTransfer (uploadFile env fileSize path hint race ab).2 = false ∧
    (uploadFile env fileSize path hint race ab).2
        = [.registerSession (uploadIdOf path env.now),
            .deleteSession (uploadIdOf path env.now)] ∧
    applyTrace m (uploadFile env fileSize path hint race ab).2 = m := by
  refine ⟨?_, ?_, ?_, applyTrace_uploadFile env fileSize path hint race ab m hm⟩ <;>
    simp [uploadFile, hoff, catchResult, getNetworkAwareErrorMessage, offlineError,
      hasTransfer, isBeginTransferEff]

/-- C5 witness: the amended theorem applied to the sample offline call. -/
theorem offline_reject_amended_witness :
    (uploadFile offlineEnvSample 100 "posts/u1/b.jpg" none .timedOut false).1
      = ⟨false, none, some offlineMessage, none⟩ :=
  (offline_reject_amended offlineEnvSample 100 "posts/u1/b.jpg" none .timedOut false []
      rfl (by decide)).1

lemma timeoutRaceError_120000_eval : timeoutRaceError 120000
    = ⟨none, "Upload timeout after 120s. Please check your connection and try again.", none⟩ := by
  have h : jsRound (120000 / 1000) = 120 := by norm_num [jsRound, Int.floor_eq_iff]
  simp only [timeoutRaceError, h]
  decide

lemma timeout_message_sample :
    getNetworkAwareErrorMessage onlineEnvSample (timeoutRaceError 120000)
      = "Upload timeout. Please check your connection and try again." := by
  rw [timeoutRaceError_120000_eval]
  decide

lemma adaptiveTimeout_100_eval :
    adaptiveTimeout 100 (isSlowConnection onlineEnvSample.connection) none = 120000 := by
  rw [show isSlowConnection onlineEnvSample.connection = false from by decide]
  norm_num [adaptiveTimeout, sizeBasedTimeout, fileSizeMB,
    MIN_TIMEOUT, MAX_TIMEOUT, DEFAULT_TIMEOUT, min_def, max_def]

lemma uploadFile_timedOut_eval (env : UploadEnv) (fileSize : ℕ) (path : String)
    (hint : Option ℚ) (uid : String)
    (ho : env.online = true) (ha : env.authUser = some uid)
    (hp : pathUserIdOf path = some uid) :
    uploadFile env fileSize path hint .timedOut false
      = (⟨false, none,
            some (getNetworkAwareErrorMessage env
              (timeoutRaceError
                (adaptiveTimeout fileSize (isSlowConnection env.connection) hint))), none⟩,
          [.registerSession (uploadIdOf path env.now), .beginTransfer path,
            .deleteSession (uploadIdOf path env.now)]) := by
  have hon : ¬env.online = false := by simp [ho]
  have hpn : ¬pathUserIdOf path ≠ some uid := by simp [hp]
  simp [uploadFile, hon, ha, hpn, catchResult]

lemma uploadFile_timedOut_sample_eval :
    uploadFile onlineEnvSample 100 "posts/u1/a.jpg" none .timedOut false
      = (⟨false, none, some "Upload timeout. Please check your connection and try again.", none⟩,
          [.registerSession (uploadIdOf "posts/u1/a.jpg" 0), .beginTransfer "posts/u1/a.jpg",
            .deleteSession (uploadIdOf "posts/u1/a.jpg" 0)]) := by
  rw [uploadFile_timedOut_eval onlineEnvSample 100 "posts/u1/a.jpg" none "u1" rfl rfl (by decide)]
  rw [adaptiveTimeout_100_eval, timeout_message_sample]
  rfl

/-- C6 counterexample: with a timed-out race on an online, authenticated
call, `uploadFile` returns the distinguished timeout error and the trace
starts a byte transfer but contains no cancellation of it — the in-flight
transfer is not cancelled on timeout, contradicting the claim. -/
theorem timeout_no_cancel_counterexample :
    (uploadFile onlineEnvSample 100 "posts/u1/a.jpg" none .timedOut false).1.error
        = some "Upload timeout. Please check your connection and try again." ∧
      UploadEffect.beginTransfer "posts/u1/a.jpg" ∈
        (uploadFile onlineEnvSample 100 "posts/u1/a.jpg" none .timedOut false).2 ∧
      UploadEffect.cancelTransfer ∉
        (uploadFile onlineEnvSample 100 "posts/u1/a.jpg" none .timedOut false).2 := by
  rw [uploadFile_timedOut_sample_eval]
  refine ⟨rfl, by decide, by decide⟩

/-- C6 (amended): when the adaptive timeout elapses first, `uploadFile`
returns a failure result carrying the classified distinguished timeout
message (at the sample instance this is the specific timeout message, not
the generic network one) and no cancelled flag; it does not cancel the
in-flight transfer on any path; and on every outcome — timeout, backend
error, cancellation — the session is deleted from the active map before the
call returns, so replaying the trace leaves the map unchanged and
`getActiveUploadsCount` stays accurate. -/
theorem timeout_cleanup_amended (env : UploadEnv) (fileSize : ℕ) (path : String)
    (hint : Option ℚ) (uid : String) (m : List String)
    (ho : env.online = true) (ha : env.authUser = some uid)
    (hp : pathUserIdOf path = some uid) (hm : uploadIdOf path env.now ∉ m) :
    (uploadFile env fileSize path hint .timedOut false).1
        = ⟨false, none,
            some (getNetworkAwareErrorMessage env
              (timeoutRaceError
                (adaptiveTimeout fileSize (isSlowConnection env.connection) hint))), none⟩ ∧
    UploadEffect.beginTransfer path ∈ (uploadFile env fileSize path hint .timedOut false).2 ∧
    (∀ race ab, UploadEffect.cancelTransfer ∉ (uploadFile env fileSize path hint race ab).2) ∧
    (∀ race ab, UploadEffect.deleteSession (uploadIdOf path env.now)
        ∈ (uploadFile env fileSize path hint race ab).2) ∧
    (∀ race ab, applyTrace m (uploadFile env fileSize path hint race ab).2 = m ∧
        getActiveUploadsCount (applyTrace m (uploadFile env fileSize path hint race ab).2)
          = getActiveUploadsCount m) ∧
    getNetworkAwareErrorMessage onlineEnvSample (timeoutRaceError 120000)
        = "Upload timeout. Please check your connection and try again." ∧
    "Upload timeout. Please check your connection and try again." ≠ genericNetworkMessage := by
  have hon : ¬env.online = false := by simp [ho]
  have hpn : ¬pathUserIdOf path ≠ some uid := by simp [hp]
  refine ⟨?_, ?_, ?_, ?_, ?_, timeout_message_sample, by decide⟩
  · simp [uploadFile, hon, ha, hpn, catchResult]
  · simp [uploadFile, hon, ha, hpn]
  · intro race ab
    rcases uploadFile_trace_shape env fileSize path hint race ab with h | h <;> simp [h]
  · intro race ab
    rcases uploadFile_trace_shape env fileSize path hint race ab with h | h <;> simp [h]
  · intro race ab
    rw [applyTrace_uploadFile env fileSize path hint race ab m hm]
    exact ⟨rfl, rfl⟩

/-- C6 witness: the amended theorem applied to the sample timed-out call. -/
theorem timeout_cleanup_amended_witness :
    UploadEffect.cancelTransfer ∉
      (uploadFile onlineEnvSample 100 "posts/u1/a.jpg" none .timedOut false).2 :=
  ((timeout_cleanup_amended onlineEnvSample 100 "posts/u1/a.jpg" none "u1" []
      rfl rfl (by decide) (by decide)).2.2.1) .timedOut false

lemma catchResult_success (env : UploadEnv) (ab : Bool) (err : JsError) :
    (catchResult env ab err).success = false := by
  unfold catchResult
  split <;> rfl

/-- C7: cancelling an id whose abort controller is shared with an in-flight
call makes that `uploadFile` call return the cancelled result — success
false, cancelled true, and no surfaced error; cancelling an id with no
active session leaves the map, and hence `getActiveUploadsCount`, unchanged;
and after `cancelAllUploads` the count is zero while every aborted in-flight
call resolves with the cancelled flag in its result. -/
theorem cancel_semantics (env : UploadEnv) (fileSize : ℕ) (path : String) (hint : Option ℚ)
    (uid : String) (err : JsError) (m mAll : List String) (uploadId : String)
    (ho : env.online = true) (ha : env.authUser = some uid)
    (hp : pathUserIdOf path = some uid) (hm : m.contains uploadId = false) :
    cancelUpload m uploadId = m ∧
    getActiveUploadsCount (cancelUpload m uploadId) = getActiveUploadsCount m ∧
    (uploadFile env fileSize path hint (.settledFailure err) true).1
        = ⟨false, none, none, some true⟩ ∧
    (uploadFile env fileSize path hint (.settledFailure err) true).1.error = none ∧
    cancelAllUploads mAll = [] ∧
    getActiveUploadsCount (cancelAllUploads mAll) = 0 := by
  have hon : ¬env.online = false := by simp [ho]
  have hpn : ¬pathUserIdOf path ≠ some uid := by simp [hp]
  have hres : (uploadFile env fileSize path hint (.settledFailure err) true).1
      = ⟨false, none, none, some true⟩ := by
    simp [uploadFile, hon, ha, hpn, catchResult]
  have hmem : uploadId ∉ m := by simpa using hm
  refine ⟨?_, ?_, hres, ?_, rfl, rfl⟩
  · simp [cancelUpload, hmem]
  · simp [cancelUpload, hmem]
  · rw [hres]

/-- C7 witness: a cancelled in-flight call and a no-op cancel, concretely. -/
theorem cancel_semantics_witness :
    cancelUpload ["a"] "b" = ["a"] ∧
      (uploadFile onlineEnvSample 100 "posts/u1/a.jpg" none
          (.settledFailure (canceledError "cancel")) true).1
        = ⟨false, none, none, some true⟩ :=
  ⟨(cancel_semantics onlineEnvSample 100 "posts/u1/a.jpg" none "u1" (canceledError "cancel")
      ["a"] [] "b" rfl rfl (by decide) (by decide)).1,
    (cancel_semantics onlineEnvSample 100 "posts/u1/a.jpg" none "u1" (canceledError "cancel")
      ["a"] [] "b" rfl rfl (by decide) (by decide)).2.2.1⟩

/-- C10: `uploadFile` returns a failure result and performs no byte transfer
whenever no user is authenticated, or the authenticated uid differs from the
second slash-separated segment of the destination path; and a transfer is
only attempted when the call is online and that segment equals the
authenticated uid. -/
theorem auth_guard (env : UploadEnv) (fileSize : ℕ) (path : String) (hint : Option ℚ)
    (race : RaceOutcome) (ab : Bool) :
    (env.authUser = none →
      (uploadFile env fileSize path hint race ab).1.success = false ∧
        hasTransfer (uploadFile env fileSize path hint race ab).2 = false) ∧
    (∀ uid, env.authUser = some uid → pathUserIdOf path ≠ some uid →
      (uploadFile env fileSize path hint race ab).1.success = false ∧
        hasTransfer (uploadFile env fileSize path hint race ab).2 = false) ∧
    (hasTransfer (uploadFile env fileSize path hint race ab).2 = true →
      env.online = true ∧ ∃ uid, env.authUser = some uid ∧ pathUserIdOf path = some uid) := by
  refine ⟨?_, ?_, ?_⟩
  · intro hnone
    by_cases ho : env.online = false
    · constructor <;>
        simp [uploadFile, ho, catchResult, hasTransfer, isBeginTransferEff, catchResult_success]
    · constructor <;>
        simp [uploadFile, ho, hnone, catchResult_success, hasTransfer, isBeginTransferEff]
  · intro uid huid hpu
    by_cases ho : env.online = false
    · constructor <;>
        simp [uploadFile, ho, catchResult, hasTransfer, isBeginTransferEff, catchResult_success]
    · constructor <;>
        simp [uploadFile, ho, huid, hpu, catchResult_success, hasTransfer, isBeginTransferEff]
  · intro htr
    by_cases ho : env.online = false
    · exfalso
      revert htr
      simp [uploadFile, ho, hasTransfer, isBeginTransferEff]
    · cases ha : env.authUser with
      | none =>
        exfalso
        revert htr
        simp [uploadFile, ho, ha, hasTransfer, isBeginTransferEff]
      | some uid0 =>
        by_cases hp : pathUserIdOf path ≠ some uid0
        · exfalso
          revert htr
          simp [uploadFile, ho, ha, hp, hasTransfer, isBeginTransferEff]
        · simp only [not_not] at hp
          simp only [Bool.not_eq_false] at ho
          exact ⟨ho, uid0, rfl, hp⟩

/-! Stall watchdog (performUpload, lines 169-198).  The interval fires every
`samplingIntervalMs`; tick `k` happens at wall time
`samplingIntervalMs * (k + 1)` after the upload start, which is time 0. -/

/-- Source line 198: the interval period of 2000 ms. -/
def samplingIntervalMs : ℕ := 2000

/-- Source line 174: a 45000 ms grace window on 2g or slow-2g links, 30000 ms
otherwise. -/
def stallThreshold (connection : Option ConnectionInfo) : ℕ :=
  if isDegradedEffType connection then 45000 else 30000

/-- Source line 182: the threshold is doubled during the first 60 seconds of
connection negotiation. -/
def currentThreshold (thr elapsed : ℕ) : ℕ :=
  if elapsed < 60000 then thr * 2 else thr

/-- Watchdog counters (lines 170-172): last observed byte count, timestamp of
the last progress, and the own cancellation flag. -/
structure WatchdogState where
  lastBytes : ℕ
  lastTick : ℕ
  cancelledByWatchdog : Bool
deriving DecidableEq

/-- One interval callback (lines 177-198): `bytesAt k` is the byte count the
task snapshot reports at tick `k`. -/
def watchdogStep (thr : ℕ) (bytesAt : ℕ → ℕ) (k : ℕ) (st : WatchdogState) : WatchdogState :=
  let now := samplingIntervalMs * (k + 1)
  let bytes := bytesAt k
  let cur := currentThreshold thr now
  if st.lastBytes < bytes then { st with lastBytes := bytes, lastTick := now }
  else if cur < now - st.lastTick then { st with cancelledByWatchdog := true }
  else st

/-- Counters at setup time (lines 170-172): zero bytes, progress stamp at the
start instant, flag clear. -/
def watchdogInit : WatchdogState := ⟨0, 0, false⟩

/-- The watchdog state after `n` interval callbacks. -/
def watchdogRun (thr : ℕ) (bytesAt : ℕ → ℕ) : ℕ → WatchdogState
  | 0 => watchdogInit
  | k + 1 => watchdogStep thr bytesAt k (watchdogRun thr bytesAt k)

/-- Source lines 222-224: a storage/canceled backend error raised while the
watchdog flag is set is converted into the distinguished stalled rejection;
any other error passes through unchanged. -/
def performUploadErrorHandler (cancelledByWatchdog : Bool) (error : JsError) : JsError :=
  if cancelledByWatchdog && error.code == some "storage/canceled" then stalledRejectError
  else error

lemma watchdogStep_cancel_mono (thr : ℕ) (f : ℕ → ℕ) (k : ℕ) (st : WatchdogState)
    (h : st.cancelledByWatchdog = true) :
    (watchdogStep thr f k st).cancelledByWatchdog = true := by
  unfold watchdogStep
  dsimp only
  split
  · exact h
  · split
    · rfl
    · exact h

lemma bytesAt_anti (f : ℕ → ℕ) (hf : ∀ k, f (k + 1) ≤ f k) : ∀ k, f k ≤ f 0 := by
  intro k
  induction k with
  | zero => exact le_rfl
  | succ n ih => exact le_trans (hf n) ih

lemma watchdogRun_quiet (thr : ℕ) (f : ℕ → ℕ) (hf : ∀ k, f (k + 1) ≤ f k)
    (hthr : 30000 ≤ thr) :
    ∀ k, 1 ≤ k → k ≤ 29 →
      (watchdogRun thr f k).cancelledByWatchdog = true ∨
        ((watchdogRun thr f k).lastBytes = f 0 ∧ (watchdogRun thr f k).lastTick ≤ 2000) := by
  intro k
  induction k with
  | zero => omega
  | succ n ih =>
    intro _ hn
    by_cases hz : n = 0
    · subst hz
      right
      have hs1 : watchdogRun thr f 1 = watchdogStep thr f 0 watchdogInit := rfl
      rw [hs1]
      unfold watchdogStep watchdogInit samplingIntervalMs currentThreshold
      dsimp only
      by_cases h0 : (0 : ℕ) < f 0
      · rw [if_pos h0]
        constructor
        · rfl
        · show 2000 * (0 + 1) ≤ 2000
          omega
      · rw [if_neg h0, if_pos (show 2000 * (0 + 1) < 60000 by omega),
          if_neg (show ¬thr * 2 < 2000 * (0 + 1) - 0 by omega)]
        constructor
        · show (0 : ℕ) = f 0
          omega
        · show (0 : ℕ) ≤ 2000
          omega
    · have h1n : 1 ≤ n := by omega
      have hn29 : n ≤ 29 := by omega
      rcases ih h1n hn29 with hc | ⟨hB, hT⟩
      · exact Or.inl (watchdogStep_cancel_mono thr f n _ hc)
      · have hb : ¬(watchdogRun thr f n).lastBytes < f n := by
          rw [hB]
          exact not_lt.mpr (bytesAt_anti f hf n)
        have hnow : 2000 * (n + 1) < 60000 := by omega
        have hnc : ¬thr * 2 < 2000 * (n + 1) - (watchdogRun thr f n).lastTick := by omega
        have hs : watchdogRun thr f (n + 1) = watchdogRun thr f n := by
          have hs1 : watchdogRun thr f (n + 1) = watchdogStep thr f n (watchdogRun thr f n) := rfl
          rw [hs1]
          unfold watchdogStep samplingIntervalMs currentThreshold
          dsimp only
          rw [if_neg hb, if_pos hnow, if_neg hnc]
        rw [hs]
        exact Or.inr ⟨hB, hT⟩

/-- With byte reports that never increase, the watchdog has set its
cancellation flag by the 30th tick, i.e. within the doubled negotiation
grace window plus one threshold. -/
lemma watchdogRun_cancels (thr : ℕ) (f : ℕ → ℕ) (hf : ∀ k, f (k + 1) ≤ f k)
    (h1 : 30000 ≤ thr) (h2 : thr ≤ 45000) :
    (watchdogRun thr f 30).cancelledByWatchdog = true := by
  rcases watchdogRun_quiet thr f hf h1 29 (by omega) (by omega) with hc | ⟨hB, hT⟩
  · exact watchdogStep_cancel_mono thr f 29 _ hc
  · have hb : ¬(watchdogRun thr f 29).lastBytes < f 29 := by
      rw [hB]
      exact not_lt.mpr (bytesAt_anti f hf 29)
    have hnow : ¬2000 * (29 + 1) < 60000 := by omega
    have hc : thr < 2000 * (29 + 1) - (watchdogRun thr f 29).lastTick := by omega
    have hs1 : watchdogRun thr f 30 = watchdogStep thr f 29 (watchdogRun thr f 29) := rfl
    rw [hs1]
    unfold watchdogStep samplingIntervalMs currentThreshold
    dsimp only
    rw [if_neg hb, if_neg hnow, if_pos hc]

lemma stallThreshold_bounds (connection : Option ConnectionInfo) :
    30000 ≤ stallThreshold connection ∧ stallThreshold connection ≤ 45000 := by
  unfold stallThreshold
  split <;> omega

/-- Constant byte reports, for witnesses of watchdog statements. -/
def zeroBytes : ℕ → ℕ := fun _ => 0

/-- C4: the watchdog samples the transferred bytes every 2000 ms with a
grace window of 45000 ms on 2g or slow-2g links and 30000 ms otherwise,
doubled while fewer than 60 seconds have elapsed; for a transfer whose
reported bytes never increase the watchdog sets its cancellation flag within
30 ticks; the resulting storage/canceled backend error is converted — via
the flag, and only via the flag — into the stalled rejection, which
`uploadFile` classifies as the stalled message, distinct from the generic
network message and from the plain cancellation message that the same
backend error receives when the flag is clear. -/
theorem stall_watchdog_claim (connection : Option ConnectionInfo) (f : ℕ → ℕ)
    (env : UploadEnv) (fileSize : ℕ) (path : String) (hint : Option ℚ)
    (uid canceledMsg : String)
    (hf : ∀ k, f (k + 1) ≤ f k)
    (ho : env.online = true) (ha : env.authUser = some uid)
    (hp : pathUserIdOf path = some uid)
    (hcm : strIncludes canceledMsg "stalled" = false) :
    samplingIntervalMs = 2000 ∧
    (isDegradedEffType connection = true → stallThreshold connection = 45000) ∧
    (isDegradedEffType connection = false → stallThreshold connection = 30000) ∧
    (∀ thr elapsed, elapsed < 60000 → currentThreshold thr elapsed = thr * 2) ∧
    (∀ thr elapsed, 60000 ≤ elapsed → currentThreshold thr elapsed = thr) ∧
    (watchdogRun (stallThreshold connection) f 30).cancelledByWatchdog = true ∧
    performUploadErrorHandler true (canceledError canceledMsg) = stalledRejectError ∧
    performUploadErrorHandler false (canceledError canceledMsg) = canceledError canceledMsg ∧
    (uploadFile env fileSize path hint (.settledFailure stalledRejectError) false).1
        = ⟨false, none, some stalledUserMessage, none⟩ ∧
    getNetworkAwareErrorMessage env (canceledError canceledMsg) = "Upload was canceled." ∧
    stalledUserMessage ≠ genericNetworkMessage ∧
    stalledUserMessage ≠ "Upload was canceled." := by
  have hon : ¬env.online = false := by simp [ho]
  have hpn : ¬pathUserIdOf path ≠ some uid := by simp [hp]
  refine ⟨rfl, ?_, ?_, ?_, ?_, ?_, ?_, ?_, ?_, ?_, by decide, by decide⟩
  · intro h
    simp [stallThreshold, h]
  · intro h
    simp [stallThreshold, h]
  · intro thr elapsed h
    simp [currentThreshold, h]
  · intro thr elapsed h
    simp [currentThreshold, Nat.not_lt.mpr h]
  · exact watchdogRun_cancels (stallThreshold connection) f hf
      (stallThreshold_bounds connection).1 (stallThreshold_bounds connection).2
  · rfl
  · rfl
  · have hstall : getNetworkAwareErrorMessage env stalledRejectError = stalledUserMessage := by
      unfold getNetworkAwareErrorMessage
      rw [if_neg hon, if_pos (show strIncludes stalledRejectError.message "stalled" = true
        from by decide)]
    simp [uploadFile, hon, ha, hpn, catchResult, hstall]
  · unfold getNetworkAwareErrorMessage
    rw [if_neg hon,
      if_neg (show ¬strIncludes (canceledError canceledMsg).message "stalled" = true from by
        simp [canceledError, hcm]),
      if_pos (show ((canceledError canceledMsg).code == some "storage/canceled") = true
        from rfl)]

/-- C4 witness: the theorem applied to a fast link, flat byte reports, and
the sample online environment. -/
theorem stall_watchdog_claim_witness :
    (watchdogRun (stallThreshold none) zeroBytes 30).cancelledByWatchdog = true ∧
      (uploadFile onlineEnvSample 100 "posts/u1/a.jpg" none
          (.settledFailure stalledRejectError) false).1
        = ⟨false, none, some stalledUserMessage, none⟩ :=
  ⟨(stall_watchdog_claim none zeroBytes onlineEnvSample 100 "posts/u1/a.jpg" none "u1" "cancel"
      (fun _ => le_rfl) rfl rfl (by decide) (by decide)).2.2.2.2.2.1,
    (stall_watchdog_claim none zeroBytes onlineEnvSample 100 "posts/u1/a.jpg" none "u1" "cancel"
      (fun _ => le_rfl) rfl rfl (by decide) (by decide)).2.2.2.2.2.2.2.2.1⟩

/-- C10 witness: a call with a mismatched path segment fails without any
byte transfer. -/
theorem auth_guard_witness :
    (uploadFile onlineEnvSample 100 "posts/other/a.jpg" none (.settledSuccess "u") false).1.success
        = false ∧
      hasTransfer
        (uploadFile onlineEnvSample 100 "posts/other/a.jpg" none (.settledSuccess "u") false).2
        = false :=
  (auth_guard onlineEnvSample 100 "posts/other/a.jpg" none (.settledSuccess "u") false).2.1
    "u1" rfl (by decide)

end NetworkAwareUploader

namespace UploadQueueService

/-- Source `UploadTask.mediaType`. -/
inductive MediaType where
  | image
  | video
deriving DecidableEq

/-- Source `UploadTask.status` (line 14). -/
inductive UploadStatus where
  | pending
  | uploading
  | completed
  | failed
deriving DecidableEq

/-- Source interface `UploadTask` (lines 7-20).  The payload `File` is
represented by its name (used for the destination extension); the resume
token is never written by the source and is omitted. -/
structure UploadTask where
  id : String
  userId : String
  fileName : String
  caption : String
  mediaType : MediaType
  thumbnail : String
  status : UploadStatus
  progress : ℚ
  error : Option String
  postId : Option String
  mediaUrl : Option String
deriving DecidableEq

/-- Firestore record created by `createOptimisticPost` (lines 84-100),
restricted to the fields the queue reads or writes. -/
structure PostRecord where
  id : String
  userId : String
  caption : String
  mediaUrl : String
  mediaType : MediaType
  uploading : Bool
deriving DecidableEq

/-- The mutable state of the queue service: the task list, the
`activeUploads` keys, and the posts collection of the document store. -/
structure QueueState where
  queue : List UploadTask
  activeUploads : List String
  posts : List PostRecord
deriving DecidableEq

/-- Mutation of the first list entry satisfying `p`, as performed by
`queue.find(...)` followed by field assignments. -/
def updateFirst (p : UploadTask → Bool) (f : UploadTask → UploadTask) :
    List UploadTask → List UploadTask
  | [] => []
  | t :: ts => if p t then f t :: ts else t :: updateFirst p f ts

/-- Removal of the first list entry satisfying `p`, as performed by
`findIndex` followed by `splice(index, 1)` (lines 211-217). -/
def removeFirst (p : UploadTask → Bool) : List UploadTask → List UploadTask
  | [] => []
  | t :: ts => if p t then ts else t :: removeFirst p ts

/-- Source `this.queue.find(t => t.id === taskId)`. -/
def findTask (st : QueueState) (taskId : String) : Option UploadTask :=
  st.queue.find? (fun t => t.id == taskId)

/-- Status of the task with the given id, when present. -/
def taskStatus (st : QueueState) (taskId : String) : Option UploadStatus :=
  (findTask st taskId).map (fun t => t.status)

/-- Progress of the task with the given id, when present. -/
def taskProgress (st : QueueState) (taskId : String) : Option ℚ :=
  (findTask st taskId).map (fun t => t.progress)

/-- Error field of the task with the given id, when present. -/
def taskErrorOf (st : QueueState) (taskId : String) : Option (Option String) :=
  (findTask st taskId).map (fun t => t.error)

/-- Source `createOptimisticPost` (lines 73-102): adds a posts record whose
media url is the preview thumbnail and whose uploading flag is set. -/
def createOptimisticPost (st : QueueState) (userId caption thumbnail : String)
    (mediaType : MediaType) (postId : String) : QueueState :=
  { st with posts := st.posts ++
      [{ id := postId, userId := userId, caption := caption, mediaUrl := thumbnail,
          mediaType := mediaType, uploading := true }] }

/-- The task object built in `addUpload` (lines 52-62). -/
def newTask (taskId userId fileName caption : String) (mediaType : MediaType)
    (thumbnail postId : String) : UploadTask :=
  { id := taskId, userId := userId, fileName := fileName, caption := caption,
    mediaType := mediaType, thumbnail := thumbnail, status := .pending, progress := 0,
    error := none, postId := some postId, mediaUrl := none }

/-- Source line 64: `this.queue.push(task)`. -/
def enqueueTask (st : QueueState) (t : UploadTask) : QueueState :=
  { st with queue := st.queue ++ [t] }

/-- Start of `processUpload` (lines 104-107) together with the session
registration done inside `uploadWithResume` (line 157): the task becomes
uploading and its id enters `activeUploads`. -/
def startProcessing (st : QueueState) (taskId : String) : QueueState :=
  { st with
    queue := updateFirst (fun t => t.id == taskId)
      (fun t => { t with status := .uploading }) st.queue,
    activeUploads :=
      if st.activeUploads.contains taskId then st.activeUploads
      else st.activeUploads ++ [taskId] }

/-- Source `updatePostWithMedia` (lines 183-190): the record gets the final
media url and its uploading flag is cleared. -/
def updatePostWithMedia (posts : List PostRecord) (postId mediaUrl : String) :
    List PostRecord :=
  posts.map (fun p =>
    if p.id == postId then { p with mediaUrl := mediaUrl, uploading := false } else p)

/-- Success continuation of `processUpload` (lines 121-127) with the session
removal done in the completion callback of `uploadWithResume` (line 172). -/
def settleSuccess (st : QueueState) (taskId postId url : String) : QueueState :=
  { st with
    activeUploads := st.activeUploads.filter (fun x => !(x == taskId)),
    posts := updatePostWithMedia st.posts postId url,
    queue := updateFirst (fun t => t.id == taskId)
      (fun t => { t with status := .completed, mediaUrl := some url, progress := 100 })
      st.queue }

/-- Failure path of `processUpload` (lines 135-140) with the session removal
done in the error callback of `uploadWithResume` (line 167). -/
def settleFailure (st : QueueState) (taskId msg : String) : QueueState :=
  { st with
    activeUploads := st.activeUploads.filter (fun x => !(x == taskId)),
    queue := updateFirst (fun t => t.id == taskId)
      (fun t => { t with status := .failed, error := some msg }) st.queue }

/-- The field resets in `retryUpload` (lines 195-197): back to pending, the
error cleared, the progress zeroed. -/
def resetForRetry (st : QueueState) (taskId : String) : QueueState :=
  { st with
    queue := updateFirst (fun t => t.id == taskId)
      (fun t => { t with status := .pending, error := none, progress := 0 }) st.queue }

/-- Source `retryUpload` (lines 192-200): only a found task in the failed
state is reset and re-processed; any other call leaves the state untouched. -/
def retryUpload (st : QueueState) (taskId : String) : QueueState :=
  if taskStatus st taskId = some .failed then
    startProcessing (resetForRetry st taskId) taskId
  else st

/-- Source `removeFromQueue` (lines 211-217). -/
def removeFromQueue (st : QueueState) (taskId : String) : QueueState :=
  { st with queue := removeFirst (fun t => t.id == taskId) st.queue }

/-- Source `cancelUpload` (lines 202-209): cancel and drop the active
session when present, then remove the task from the queue unconditionally. -/
def cancelUpload (st : QueueState) (taskId : String) : QueueState :=
  removeFromQueue
    { st with activeUploads := st.activeUploads.filter (fun x => !(x == taskId)) } taskId

/-- The atomic queue-state mutations as they occur in the source: task
creation, the synchronous start of processing, the two settle continuations
of a started transfer, the reset performed by a permitted retry, a cancel,
and the delayed removal after completion. -/
inductive QEvent where
  | enqueue (t : UploadTask)
  | startProcess (taskId : String)
  | settleS (taskId postId url : String)
  | settleF (taskId msg : String)
  | resetRetry (taskId : String)
  | cancel (taskId : String)
  | gcRemove (taskId : String)
deriving DecidableEq

/-- Effect of an event on the state. -/
def applyEvent (st : QueueState) : QEvent → QueueState
  | .enqueue t => enqueueTask st t
  | .startProcess taskId => startProcessing st taskId
  | .settleS taskId postId url => settleSuccess st taskId postId url
  | .settleF taskId msg => settleFailure st taskId msg
  | .resetRetry taskId => resetForRetry st taskId
  | .cancel taskId => cancelUpload st taskId
  | .gcRemove taskId => removeFromQueue st taskId

/-- The circumstances under which the source triggers each event: ids are
fresh at enqueue time; `processUpload` is only ever invoked on a task that
was just created or just reset, hence pending; a settle continuation belongs
to a transfer started while the task was uploading, and fires at most once —
if the task was cancelled meanwhile it is gone from the queue; the reset in
`retryUpload` is guarded by the failed check; cancel and removal are
unconditional. -/
def eventGuard (st : QueueState) : QEvent → Prop
  | .enqueue t => taskStatus st t.id = none
  | .startProcess taskId => taskStatus st taskId = some .pending
  | .settleS taskId _ _ =>
    taskStatus st taskId = some .uploading ∨ taskStatus st taskId = none
  | .settleF taskId _ =>
    taskStatus st taskId = some .uploading ∨ taskStatus st taskId = none
  | .resetRetry taskId => taskStatus st taskId = some .failed
  | .cancel _ => True
  | .gcRemove _ => True

/-- The transition graph the claim allows: stutter, pending to uploading,
uploading to completed or failed, and failed back to pending on retry. -/
def allowedEdge (s t : UploadStatus) : Prop :=
  s = t ∨ (s = .pending ∧ t = .uploading) ∨
    (s = .uploading ∧ (t = .completed ∨ t = .failed)) ∨
    (s = .failed ∧ t = .pending)

lemma find?_updateFirst_eq (l : List UploadTask) (tid : String) (f : UploadTask → UploadTask)
    (hf : ∀ t, (f t).id = t.id) :
    (updateFirst (fun t => t.id == tid) f l).find? (fun t => t.id == tid)
      = (l.find? (fun t => t.id == tid)).map f := by
  induction l with
  | nil => rfl
  | cons t ts ih =>
    by_cases h : (t.id == tid) = true
    · simp [updateFirst, h, List.find?, hf t]
    · simp [updateFirst, h, List.find?, hf t, ih]

lemma find?_updateFirst_ne (l : List UploadTask) (tid oid : String)
    (h : (oid == tid) = false) (f : UploadTask → UploadTask)
    (hf : ∀ t, (f t).id = t.id) :
    (updateFirst (fun t => t.id == tid) f l).find? (fun t => t.id == oid)
      = l.find? (fun t => t.id == oid) := by
  have hne : oid ≠ tid := by simpa using h
  induction l with
  | nil => rfl
  | cons t ts ih =>
    by_cases ht : (t.id == tid) = true
    · have h1 : t.id = tid := by simpa using ht
      have hto : (t.id == oid) = false := by
        simp only [beq_eq_false_iff_ne, ne_eq, h1]
        exact fun he => hne he.symm
      simp [updateFirst, ht, List.find?, hf t, hto]
    · by_cases hto : (t.id == oid) = true
      · simp [updateFirst, ht, List.find?, hto]
      · simp [updateFirst, ht, List.find?, hto, ih]

lemma find?_removeFirst_ne (l : List UploadTask) (tid oid : String)
    (h : (oid == tid) = false) :
    (removeFirst (fun t => t.id == tid) l).find? (fun t => t.id == oid)
      = l.find? (fun t => t.id == oid) := by
  have hne : oid ≠ tid := by simpa using h
  induction l with
  | nil => rfl
  | cons t ts ih =>
    by_cases ht : (t.id == tid) = true
    · have h1 : t.id = tid := by simpa using ht
      have hto : (t.id == oid) = false := by
        simp only [beq_eq_false_iff_ne, ne_eq, h1]
        exact fun he => hne he.symm
      simp [removeFirst, ht, List.find?, hto]
    · by_cases hto : (t.id == oid) = true
      · simp [removeFirst, ht, List.find?, hto]
      · simp [removeFirst, ht, List.find?, hto, ih]

lemma find?_removeFirst_self (l : List UploadTask) (tid : String)
    (hn : (l.map (fun t => t.id)).Nodup) :
    (removeFirst (fun t => t.id == tid) l).find? (fun t => t.id == tid) = none := by
  induction l with
  | nil => rfl
  | cons t ts ih =>
    rw [List.map_cons, List.nodup_cons] at hn
    by_cases ht : (t.id == tid) = true
    · have h1 : t.id = tid := by simpa using ht
      rw [removeFirst, if_pos ht]
      apply List.find?_eq_none.mpr
      intro x hx
      simp only [beq_iff_eq]
      intro he
      exact hn.1 (by rw [h1, ← he]; exact List.mem_map_of_mem _ hx)
    · have hstep : removeFirst (fun t => t.id == tid) (t :: ts)
          = t :: removeFirst (fun t => t.id == tid) ts := by
        rw [removeFirst, if_neg ht]
      rw [hstep]
      simp [List.find?, ht, ih hn.2]

lemma find?_append_some (p : UploadTask → Bool) (l1 l2 : List UploadTask) (a : UploadTask)
    (h : l1.find? p = some a) : (l1 ++ l2).find? p = some a := by
  induction l1 with
  | nil => simp [List.find?] at h
  | cons b bs ih =>
    by_cases hb : p b = true
    · rw [List.find?_cons_of_pos _ hb] at h
      rw [List.cons_append, List.find?_cons_of_pos _ hb]
      exact h
    · rw [List.find?_cons_of_neg _ hb] at h
      rw [List.cons_append, List.find?_cons_of_neg _ hb]
      exact ih h

lemma taskStatus_update_op (q : List UploadTask) (tid oid : String)
    (f : UploadTask → UploadTask) (hf : ∀ t, (f t).id = t.id) :
    ((updateFirst (fun t => t.id == tid) f q).find? (fun t => t.id == oid)).map
        (fun t => t.status)
      = if oid = tid then (q.find? (fun t => t.id == tid)).map (fun t => (f t).status)
        else (q.find? (fun t => t.id == oid)).map (fun t => t.status) := by
  by_cases h : oid = tid
  · subst h
    rw [if_pos rfl, find?_updateFirst_eq q oid f hf, Option.map_map]
    rfl
  · rw [if_neg h, find?_updateFirst_ne q tid oid (by simpa using h) f hf]

lemma taskStatus_startProcessing (st : QueueState) (tid oid : String) :
    taskStatus (startProcessing st tid) oid
      = if oid = tid then (taskStatus st tid).map (fun _ => UploadStatus.uploading)
        else taskStatus st oid := by
  unfold taskStatus findTask startProcessing
  dsimp only
  rw [taskStatus_update_op st.queue tid oid
    (fun t => { t with status := UploadStatus.uploading }) (fun t => rfl)]
  by_cases h : oid = tid
  · subst h
    rw [if_pos rfl, if_pos rfl, Option.map_map]
    rfl
  · rw [if_neg h, if_neg h]

lemma taskStatus_settleSuccess (st : QueueState) (tid pid url oid : String) :
    taskStatus (settleSuccess st tid pid url) oid
      = if oid = tid then (taskStatus st tid).map (fun _ => UploadStatus.completed)
        else taskStatus st oid := by
  unfold taskStatus findTask settleSuccess
  dsimp only
  rw [taskStatus_update_op st.queue tid oid
    (fun t =>
      { t with status := UploadStatus.completed, mediaUrl := some url, progress := 100 })
    (fun t => rfl)]
  by_cases h : oid = tid
  · subst h
    rw [if_pos rfl, if_pos rfl, Option.map_map]
    rfl
  · rw [if_neg h, if_neg h]

lemma taskStatus_settleFailure (st : QueueState) (tid msg oid : String) :
    taskStatus (settleFailure st tid msg) oid
      = if oid = tid then (taskStatus st tid).map (fun _ => UploadStatus.failed)
        else taskStatus st oid := by
  unfold taskStatus findTask settleFailure
  dsimp only
  rw [taskStatus_update_op st.queue tid oid
    (fun t => { t with status := UploadStatus.failed, error := some msg }) (fun t => rfl)]
  by_cases h : oid = tid
  · subst h
    rw [if_pos rfl, if_pos rfl, Option.map_map]
    rfl
  · rw [if_neg h, if_neg h]

lemma taskStatus_resetForRetry (st : QueueState) (tid oid : String) :
    taskStatus (resetForRetry st tid) oid
      = if oid = tid then (taskStatus st tid).map (fun _ => UploadStatus.pending)
        else taskStatus st oid := by
  unfold taskStatus findTask resetForRetry
  dsimp only
  rw [taskStatus_update_op st.queue tid oid
    (fun t => { t with status := UploadStatus.pending, error := none, progress := 0 })
    (fun t => rfl)]
  by_cases h : oid = tid
  · subst h
    rw [if_pos rfl, if_pos rfl, Option.map_map]
    rfl
  · rw [if_neg h, if_neg h]

lemma taskStatus_removeFromQueue (st : QueueState) (tid oid : String)
    (hn : (st.queue.map (fun t => t.id)).Nodup) :
    taskStatus (removeFromQueue st tid) oid
      = if oid = tid then none else taskStatus st oid := by
  unfold taskStatus findTask removeFromQueue
  dsimp only
  by_cases h : oid = tid
  · subst h
    rw [if_pos rfl, find?_removeFirst_self st.queue oid hn]
    rfl
  · rw [if_neg h, find?_removeFirst_ne st.queue tid oid (by simpa using h)]

lemma taskStatus_cancelUpload (st : QueueState) (tid oid : String)
    (hn : (st.queue.map (fun t => t.id)).Nodup) :
    taskStatus (cancelUpload st tid) oid
      = if oid = tid then none else taskStatus st oid := by
  unfold cancelUpload
  exact taskStatus_removeFromQueue _ tid oid hn

lemma taskStatus_enqueueTask (st : QueueState) (tk : UploadTask) (oid : String)
    (s : UploadStatus) (hs : taskStatus st oid = some s) :
    taskStatus (enqueueTask st tk) oid = some s := by
  unfold taskStatus findTask at hs ⊢
  unfold enqueueTask
  dsimp only
  obtain ⟨a, ha, hsa⟩ := Option.map_eq_some'.mp hs
  rw [find?_append_some _ st.queue [tk] a ha]
  simpa using hsa

/-- C2: across every event the source can trigger, a task status changes
only along pending to uploading to completed or failed, and a failed task
returns to pending only through the reset performed by an explicit retry;
`retryUpload` on a task that is not in the failed state is a complete no-op
— in particular it never registers a second concurrent session — while a
permitted retry resets the progress to zero, clears the error, and starts a
fresh transfer whose session is registered for the task. -/
theorem uploadTask_status_machine (st : QueueState) (e : QEvent) (taskId : String)
    (hn : (st.queue.map (fun t => t.id)).Nodup) (hg : eventGuard st e) :
    (∀ oid s t, taskStatus st oid = some s → taskStatus (applyEvent st e) oid = some t →
      allowedEdge s t) ∧
    (∀ oid, taskStatus st oid = some .failed →
      taskStatus (applyEvent st e) oid = some .pending → e = .resetRetry oid) ∧
    (taskStatus st taskId ≠ some .failed → retryUpload st taskId = st) ∧
    (taskStatus st taskId = some .failed →
      retryUpload st taskId = startProcessing (resetForRetry st taskId) taskId ∧
      taskStatus (resetForRetry st taskId) taskId = some .pending ∧
      taskErrorOf (resetForRetry st taskId) taskId = some none ∧
      taskProgress (resetForRetry st taskId) taskId = some 0 ∧
      taskStatus (retryUpload st taskId) taskId = some .uploading ∧
      taskId ∈ (retryUpload st taskId).activeUploads) := by
  refine ⟨?_, ?_, ?_, ?_⟩
  · intro oid s t hs ht
    cases e with
    | enqueue tk =>
      have h2 := taskStatus_enqueueTask st tk oid s hs
      rw [show applyEvent st (QEvent.enqueue tk) = enqueueTask st tk from rfl, h2] at ht
      rw [Option.some.inj ht]
      exact Or.inl rfl
    | startProcess tid =>
      have hg' : taskStatus st tid = some .pending := hg
      rw [show applyEvent st (QEvent.startProcess tid) = startProcessing st tid from rfl,
        taskStatus_startProcessing st tid oid] at ht
      by_cases h : oid = tid
      · subst h
        have h1 : s = .pending := by rw [hs] at hg'; exact Option.some.inj hg'
        rw [if_pos rfl, hs] at ht
        simp only [Option.map_some'] at ht
        have h2 : t = .uploading := (Option.some.inj ht).symm
        rw [h1, h2]
        exact Or.inr (Or.inl ⟨rfl, rfl⟩)
      · rw [if_neg h, hs] at ht
        rw [Option.some.inj ht]
        exact Or.inl rfl
    | settleS tid pid url =>
      have hg' : taskStatus st tid = some .uploading ∨ taskStatus st tid = none := hg
      rw [show applyEvent st (QEvent.settleS tid pid url) = settleSuccess st tid pid url
        from rfl, taskStatus_settleSuccess st tid pid url oid] at ht
      by_cases h : oid = tid
      · subst h
        rcases hg' with hup | hnone
        · have h1 : s = .uploading := by rw [hs] at hup; exact Option.some.inj hup
          rw [if_pos rfl, hs] at ht
          simp only [Option.map_some'] at ht
          have h2 : t = .completed := (Option.some.inj ht).symm
          rw [h1, h2]
          exact Or.inr (Or.inr (Or.inl ⟨rfl, Or.inl rfl⟩))
        · rw [hs] at hnone
          exact absurd hnone (by simp)
      · rw [if_neg h, hs] at ht
        rw [Option.some.inj ht]
        exact Or.inl rfl
    | settleF tid msg =>
      have hg' : taskStatus st tid = some .uploading ∨ taskStatus st tid = none := hg
      rw [show applyEvent st (QEvent.settleF tid msg) = settleFailure st tid msg from rfl,
        taskStatus_settleFailure st tid msg oid] at ht
      by_cases h : oid = tid
      · subst h
        rcases hg' with hup | hnone
        · have h1 : s = .uploading := by rw [hs] at hup; exact Option.some.inj hup
          rw [if_pos rfl, hs] at ht
          simp only [Option.map_some'] at ht
          have h2 : t = .failed := (Option.some.inj ht).symm
          rw [h1, h2]
          exact Or.inr (Or.inr (Or.inl ⟨rfl, Or.inr rfl⟩))
        · rw [hs] at hnone
          exact absurd hnone (by simp)
      · rw [if_neg h, hs] at ht
        rw [Option.some.inj ht]
        exact Or.inl rfl
    | resetRetry tid =>
      have hg' : taskStatus st tid = some .failed := hg
      rw [show applyEvent st (QEvent.resetRetry tid) = resetForRetry st tid from rfl,
        taskStatus_resetForRetry st tid oid] at ht
      by_cases h : oid = tid
      · subst h
        have h1 : s = .failed := by rw [hs] at hg'; exact Option.some.inj hg'
        rw [if_pos rfl, hs] at ht
        simp only [Option.map_some'] at ht
        have h2 : t = .pending := (Option.some.inj ht).symm
        rw [h1, h2]
        exact Or.inr (Or.inr (Or.inr ⟨rfl, rfl⟩))
      · rw [if_neg h, hs] at ht
        rw [Option.some.inj ht]
        exact Or.inl rfl
    | cancel tid =>
      rw [show applyEvent st (QEvent.cancel tid) = cancelUpload st tid from rfl,
        taskStatus_cancelUpload st tid oid hn] at ht
      by_cases h : oid = tid
      · rw [if_pos h] at ht
        exact absurd ht (by simp)
      · rw [if_neg h, hs] at ht
        rw [Option.some.inj ht]
        exact Or.inl rfl
    | gcRemove tid =>
      rw [show applyEvent st (QEvent.gcRemove tid) = removeFromQueue st tid from rfl,
        taskStatus_removeFromQueue st tid oid hn] at ht
      by_cases h : oid = tid
      · rw [if_pos h] at ht
        exact absurd ht (by simp)
      · rw [if_neg h, hs] at ht
        rw [Option.some.inj ht]
        exact Or.inl rfl
  · intro oid hf0 hp0
    cases e with
    | enqueue tk =>
      have h2 := taskStatus_enqueueTask st tk oid .failed hf0
      rw [show applyEvent st (QEvent.enqueue tk) = enqueueTask st tk from rfl, h2] at hp0
      exact absurd hp0 (by simp)
    | startProcess tid =>
      have hg' : taskStatus st tid = some .pending := hg
      by_cases h : oid = tid
      · subst h
        rw [hg'] at hf0
        exact absurd hf0 (by simp)
      · rw [show applyEvent st (QEvent.startProcess tid) = startProcessing st tid from rfl,
          taskStatus_startProcessing st tid oid, if_neg h, hf0] at hp0
        exact absurd hp0 (by simp)
    | settleS tid pid url =>
      have hg' : taskStatus st tid = some .uploading ∨ taskStatus st tid = none := hg
      by_cases h : oid = tid
      · subst h
        rcases hg' with hup | hnone
        · rw [hup] at hf0
          exact absurd hf0 (by simp)
        · rw [hnone] at hf0
          exact absurd hf0 (by simp)
      · rw [show applyEvent st (QEvent.settleS tid pid url) = settleSuccess st tid pid url
          from rfl, taskStatus_settleSuccess st tid pid url oid, if_neg h, hf0] at hp0
        exact absurd hp0 (by simp)
    | settleF tid msg =>
      rw [show applyEvent st (QEvent.settleF tid msg) = settleFailure st tid msg from rfl,
        taskStatus_settleFailure st tid msg oid] at hp0
      by_cases h : oid = tid
      · rw [if_pos h, ← h, hf0] at hp0
        simp only [Option.map_some'] at hp0
        exact absurd hp0 (by simp)
      · rw [if_neg h, hf0] at hp0
        exact absurd hp0 (by simp)
    | resetRetry tid =>
      by_cases h : oid = tid
      · rw [h]
      · rw [show applyEvent st (QEvent.resetRetry tid) = resetForRetry st tid from rfl,
          taskStatus_resetForRetry st tid oid, if_neg h, hf0] at hp0
        exact absurd hp0 (by simp)
    | cancel tid =>
      rw [show applyEvent st (QEvent.cancel tid) = cancelUpload st tid from rfl,
        taskStatus_cancelUpload st tid oid hn] at hp0
      by_cases h : oid = tid
      · rw [if_pos h] at hp0
        exact absurd hp0 (by simp)
      · rw [if_neg h, hf0] at hp0
        exact absurd hp0 (by simp)
    | gcRemove tid =>
      rw [show applyEvent st (QEvent.gcRemove tid) = removeFromQueue st tid from rfl,
        taskStatus_removeFromQueue st tid oid hn] at hp0
      by_cases h : oid = tid
      · rw [if_pos h] at hp0
        exact absurd hp0 (by simp)
      · rw [if_neg h, hf0] at hp0
        exact absurd hp0 (by simp)
  · intro hnf
    unfold retryUpload
    rw [if_neg hnf]
  · intro hfail
    have hretry : retryUpload st taskId = startProcessing (resetForRetry st taskId) taskId := by
      unfold retryUpload
      rw [if_pos hfail]
    obtain ⟨a, ha, _⟩ := Option.map_eq_some'.mp hfail
    have hreset : (resetForRetry st taskId).queue.find? (fun t => t.id == taskId)
        = some { a with status := .pending, error := none, progress := 0 } := by
      unfold resetForRetry
      dsimp only
      rw [find?_updateFirst_eq st.queue taskId
        (fun t => { t with status := UploadStatus.pending, error := none, progress := 0 })
        (fun t => rfl)]
      unfold findTask at ha
      rw [ha]
      rfl
    refine ⟨hretry, ?_, ?_, ?_, ?_, ?_⟩
    · unfold taskStatus findTask
      rw [hreset]
      rfl
    · unfold taskErrorOf findTask
      rw [hreset]
      rfl
    · unfold taskProgress findTask
      rw [hreset]
      rfl
    · rw [hretry]
      unfold taskStatus findTask startProcessing
      dsimp only
      rw [find?_updateFirst_eq (resetForRetry st taskId).queue taskId
        (fun t => { t with status := UploadStatus.uploading }) (fun t => rfl), hreset]
      rfl
    · rw [hretry]
      unfold startProcessing
      dsimp only
      by_cases hc : (resetForRetry st taskId).activeUploads.contains taskId = true
      · rw [if_pos hc]
        simpa using hc
      · rw [if_neg hc]
        simp

/-- Concrete failed task used by witnesses. -/
def sampleFailedTask : UploadTask :=
  { id := "t1", userId := "u1", fileName := "a.jpg", caption := "c", mediaType := .image,
    thumbnail := "th", status := .failed, progress := 40, error := some "err",
    postId := some "p1", mediaUrl := none }

/-- Queue state holding only the sample failed task. -/
def sampleFailedState : QueueState := ⟨[sampleFailedTask], [], []⟩

/-- C2 witness: on the sample state, a permitted retry ends with the task
uploading, and a retry of an unknown id changes nothing. -/
theorem uploadTask_status_machine_witness :
    taskStatus (retryUpload sampleFailedState "t1") "t1" = some .uploading ∧
      retryUpload sampleFailedState "t2" = sampleFailedState :=
  ⟨((uploadTask_status_machine sampleFailedState (.resetRetry "t1") "t1" (by decide)
      (by decide : taskStatus sampleFailedState "t1" = some UploadStatus.failed)).2.2.2
      (by decide)).2.2.2.2.1,
    (uploadTask_status_machine sampleFailedState (.resetRetry "t1") "t2" (by decide)
      (by decide : taskStatus sampleFailedState "t1" = some UploadStatus.failed)).2.2.1
      (by decide)⟩

/-- How the transfer of a submitted task settles. -/
inductive UploadOutcome where
  | success (url : String)
  | failure (msg : String)
deriving DecidableEq

/-- Observable pipeline effects: document-store writes, subscriber
notifications, and the two conceivable ways of starting the byte transfer —
through the network-aware controller, or directly against the storage
backend. -/
inductive QEffect where
  | createRecord (postId : String)
  | notifySubs
  | controllerUpload (path : String)
  | directStorageUpload (path : String)
  | patchRecord (postId url : String)
  | deleteRecord (postId : String)
deriving DecidableEq

/-- Effects that are not a byte-transfer start. -/
def notTransferEff : QEffect → Bool
  | .controllerUpload _ => false
  | .directStorageUpload _ => false
  | _ => true

/-- Effects that are not a controller invocation. -/
def notControllerEff : QEffect → Bool
  | .controllerUpload _ => false
  | _ => true

/-- Source line 149: `file.name.split(dot).pop()`, the last segment. -/
def fileExtensionOf (fileName : String) : String :=
  ((Genzly.jsSplit '.' fileName).getLast?).getD ""

/-- Source lines 113 and 150-151: the storage key is the placeholder id
prefixed, the file name appends the extension, and the destination is the
posts folder of the placeholder id. -/
def uploadDestPath (postId fileName : String) : String :=
  "posts/" ++ postId ++ "/" ++ ("p_" ++ postId ++ "." ++ fileExtensionOf fileName)

/-- Source `posts.find` by record id. -/
def findPost (posts : List PostRecord) (postId : String) : Option PostRecord :=
  posts.find? (fun p => p.id == postId)

/-- State after the synchronous part of `addUpload` (lines 38-71): the
placeholder record is created, the pending task is enqueued, and processing
starts at once. -/
def addUploadState (st : QueueState) (userId fileName caption : String)
    (mediaType : MediaType) (thumbnail taskId postId : String) : QueueState :=
  startProcessing
    (enqueueTask (createOptimisticPost st userId caption thumbnail mediaType postId)
      (newTask taskId userId fileName caption mediaType thumbnail postId))
    taskId

/-- One whole `addUpload` plus `processUpload` run (lines 38-141), paired
with the ordered effect trace the source produces: placeholder creation,
notification of the enqueued task, notification of the uploading task, the
byte transfer performed directly through the storage backend, then either
the record patch and completion notification or only the failure
notification — never a record deletion. -/
def submitPipeline (st : QueueState) (userId fileName caption : String)
    (mediaType : MediaType) (thumbnail taskId postId : String) (outcome : UploadOutcome) :
    QueueState × List QEffect :=
  let st3 := addUploadState st userId fileName caption mediaType thumbnail taskId postId
  match outcome with
  | .success url =>
    (settleSuccess st3 taskId postId url,
      [.createRecord postId, .notifySubs, .notifySubs,
        .directStorageUpload (uploadDestPath postId fileName),
        .patchRecord postId url, .notifySubs])
  | .failure msg =>
    (settleFailure st3 taskId msg,
      [.createRecord postId, .notifySubs, .notifySubs,
        .directStorageUpload (uploadDestPath postId fileName),
        .notifySubs])

lemma find?_append_of_none {α : Type} (p : α → Bool) (l1 l2 : List α)
    (h : l1.find? p = none) : (l1 ++ l2).find? p = l2.find? p := by
  induction l1 with
  | nil => rfl
  | cons b bs ih =>
    by_cases hb : p b = true
    · rw [List.find?_cons_of_pos _ hb] at h
      exact absurd h (by simp)
    · rw [List.find?_cons_of_neg _ hb] at h
      rw [List.cons_append, List.find?_cons_of_neg _ hb]
      exact ih h

lemma find?_updatePost (posts : List PostRecord) (pid url : String) :
    (updatePostWithMedia posts pid url).find? (fun p => p.id == pid)
      = (posts.find? (fun p => p.id == pid)).map
          (fun p => { p with mediaUrl := url, uploading := false }) := by
  induction posts with
  | nil => rfl
  | cons b bs ih =>
    have hstep : updatePostWithMedia (b :: bs) pid url
        = (if b.id == pid then { b with mediaUrl := url, uploading := false } else b)
            :: updatePostWithMedia bs pid url := rfl
    rw [hstep]
    by_cases hb : (b.id == pid) = true
    · rw [if_pos hb]
      have h1 : (({ b with mediaUrl := url, uploading := false } : PostRecord) ::
            updatePostWithMedia bs pid url).find? (fun p => p.id == pid)
          = some { b with mediaUrl := url, uploading := false } :=
        List.find?_cons_of_pos _ hb
      have h2 : (b :: bs).find? (fun p => p.id == pid) = some b :=
        List.find?_cons_of_pos _ hb
      rw [h1, h2]
      rfl
    · rw [if_neg hb]
      have h1 : (b :: updatePostWithMedia bs pid url).find? (fun p => p.id == pid)
          = (updatePostWithMedia bs pid url).find? (fun p => p.id == pid) :=
        List.find?_cons_of_neg _ hb
      have h2 : (b :: bs).find? (fun p => p.id == pid) = bs.find? (fun p => p.id == pid) :=
        List.find?_cons_of_neg _ hb
      rw [h1, h2, ih]

/-- C3: for every submitted task the placeholder record — carrying the
preview thumbnail as its media url and the uploading flag set — is created
before any byte-transfer effect appears in the trace; on success the record
is patched with the final url and the flag is cleared; on failure the
record still carries the thumbnail with the flag set — it is left in its
recoverable state, and no trace ever deletes a record. -/
theorem placeholder_lifecycle (st : QueueState) (userId fileName caption thumbnail : String)
    (taskId postId : String) (mediaType : MediaType) (outcome : UploadOutcome)
    (hfresh : findPost st.posts postId = none) :
    QEffect.createRecord postId ∈
      ((submitPipeline st userId fileName caption mediaType thumbnail taskId postId
        outcome).2.takeWhile notTransferEff) ∧
    findPost (createOptimisticPost st userId caption thumbnail mediaType postId).posts postId
      = some ⟨postId, userId, caption, thumbnail, mediaType, true⟩ ∧
    (∀ url, outcome = .success url →
      findPost (submitPipeline st userId fileName caption mediaType thumbnail taskId postId
          outcome).1.posts postId
        = some ⟨postId, userId, caption, url, mediaType, false⟩) ∧
    (∀ msg, outcome = .failure msg →
      findPost (submitPipeline st userId fileName caption mediaType thumbnail taskId postId
          outcome).1.posts postId
        = some ⟨postId, userId, caption, thumbnail, mediaType, true⟩) ∧
    (∀ pid, QEffect.deleteRecord pid ∉
      (submitPipeline st userId fileName caption mediaType thumbnail taskId postId
        outcome).2) := by
  have hfind1 : (st.posts ++ [(⟨postId, userId, caption, thumbnail, mediaType, true⟩ :
        PostRecord)]).find? (fun p => p.id == postId)
      = some ⟨postId, userId, caption, thumbnail, mediaType, true⟩ := by
    unfold findPost at hfresh
    rw [find?_append_of_none _ _ _ hfresh]
    simp [List.find?]
  refine ⟨?_, ?_, ?_, ?_, ?_⟩
  · cases outcome <;> simp [submitPipeline, notTransferEff, List.takeWhile]
  · exact hfind1
  · intro url hout
    subst hout
    show findPost (updatePostWithMedia
        (st.posts ++ [⟨postId, userId, caption, thumbnail, mediaType, true⟩]) postId url)
        postId = _
    unfold findPost
    rw [find?_updatePost, hfind1]
    rfl
  · intro msg hout
    subst hout
    exact hfind1
  · intro pid
    cases outcome <;> simp [submitPipeline]

/-- C3 witness: the theorem applied to an empty initial state and a
successful transfer. -/
theorem placeholder_lifecycle_witness :
    findPost (submitPipeline ⟨[], [], []⟩ "u1" "a.jpg" "cap" MediaType.image "thumb" "t1"
        "p1" (.success "URL")).1.posts "p1"
      = some ⟨"p1", "u1", "cap", "URL", MediaType.image, false⟩ :=
  (placeholder_lifecycle ⟨[], [], []⟩ "u1" "a.jpg" "cap" "thumb" "t1" "p1"
    MediaType.image (.success "URL") rfl).2.2.1 "URL" rfl

/-- C8 counterexample: on a concrete submitted task the pipeline trace
contains a direct storage-backend transfer and no controller invocation at
all — the queue does not inherit the controller checks. -/
theorem queue_controller_counterexample :
    (submitPipeline ⟨[], [], []⟩ "u1" "a.jpg" "cap" MediaType.image "thumb" "t1" "p1"
        (.success "URL")).2.all notControllerEff = true ∧
      QEffect.directStorageUpload (uploadDestPath "p1" "a.jpg") ∈
        (submitPipeline ⟨[], [], []⟩ "u1" "a.jpg" "cap" MediaType.image "thumb" "t1" "p1"
          (.success "URL")).2 := by
  constructor
  · decide
  · decide

/-- C8 (amended): for every task the queue processes, the byte transfer is
performed by calling the storage backend directly — never through the
network-aware controller — at the deterministic destination path
posts/<placeholderId>/p_<placeholderId>.<extension> derived from the
placeholder record id. -/
theorem queue_transfer_path (st : QueueState) (userId fileName caption thumbnail : String)
    (taskId postId : String) (mediaType : MediaType) (outcome : UploadOutcome) :
    QEffect.directStorageUpload (uploadDestPath postId fileName) ∈
      (submitPipeline st userId fileName caption mediaType thumbnail taskId postId
        outcome).2 ∧
    (submitPipeline st userId fileName caption mediaType thumbnail taskId postId
      outcome).2.all notControllerEff = true ∧
    uploadDestPath postId fileName
      = "posts/" ++ postId ++ "/" ++ ("p_" ++ postId ++ "." ++ fileExtensionOf fileName) := by
  refine ⟨?_, ?_, rfl⟩
  · cases outcome <;> simp [submitPipeline]
  · cases outcome <;> simp [submitPipeline, notControllerEff]

end UploadQueueService

end Genzly
